import Mathlib

/-!
Verification development for the Acceso x402 Solana payment facilitator.

Shallow embedding of `src/x402/facilitator.py`, `src/x402/main.py`,
`src/x402/config.py` and `src/x402/types.py`.

Modelling conventions:
* Solana public keys are represented by their base58 string form.  The
  Python code compares `solders.Pubkey` values; base58 decoding is
  injective on valid strings, so string equality is faithful to pubkey
  equality.  `Pubkey.from_string` is modelled as the identity on strings.
* Byte strings are `List Nat` (each entry is one byte).
* Python exceptions raised inside `verify` (IndexError from list
  indexing, ValueError from `int(...)`) are modelled by `Option`:
  `none` stands for a raised exception, which the outer `try/except`
  of `verify` converts into an invalid response whose reason is the
  exception text.  The exact exception text does not matter to any
  claim; we use the CPython IndexError message.
* `Pubkey.find_program_address` (SHA256 plus an off-curve check inside
  the solders library) is an injective deterministic derivation; it is
  modelled as an explicit function parameter `fpa` of the verifier.
* Ed25519 signing and the solders message serializers are likewise
  passed as explicit function parameters to `settle`.
-/

namespace X402

/-- Program id constant from facilitator.py line 32. -/
def COMPUTE_BUDGET_PROGRAM : String := "ComputeBudget111111111111111111111111111111"

/-- Program id constant from facilitator.py line 33. -/
def SPL_TOKEN_PROGRAM : String := "TokenkegQfeZyiNwAJbNbGKPFXCWuBvf9Ss623VQ5DA"

/-- Program id constant from facilitator.py line 34. -/
def TOKEN_2022_PROGRAM : String := "TokenzQdBNbLqP5VEhdkAS6EPFLC1PHnBqCXEpPxuEb"

/-- Program id constant from facilitator.py line 35. -/
def ASSOCIATED_TOKEN_PROGRAM : String := "ATokenGPvbdGVxr1b2hvZbsiqW5xWH25efTNsLJA8knL"

/-- The settings used by the facilitator (config.py, class Settings);
only the fields the verifier, settler and requirement builder read. -/
structure Settings where
  usdc_mint : String
  usdc_decimals : Nat
  max_compute_unit_price : Nat
  solana_network : String
deriving DecidableEq, Repr

/-- types.py, class PaymentRequirementsExtra. -/
structure PaymentRequirementsExtra where
  fee_payer : String
deriving DecidableEq, Repr

/-- types.py, class PaymentRequirements (outputSchema is always None
in the code paths modelled here and is omitted). -/
structure PaymentRequirements where
  scheme : String
  network : String
  max_amount_required : String
  asset : String
  pay_to : String
  resource : String
  description : String
  mime_type : String
  max_timeout_seconds : Nat
  extra : PaymentRequirementsExtra
deriving DecidableEq, Repr

/-- types.py, class VerifyResponse. -/
structure VerifyResponse where
  is_valid : Bool
  invalid_reason : Option String
deriving DecidableEq, Repr

/-- types.py, class SettleResponse. -/
structure SettleResponse where
  success : Bool
  error : Option String
  tx_hash : Option String
  network : Option String
  payer : Option String
deriving DecidableEq, Repr

/-- A compiled instruction of a decoded Solana transaction
(solders CompiledInstruction): program id index, account indices,
and raw data bytes. -/
structure CompiledInstruction where
  program_id_index : Nat
  accounts : List Nat
  data : List Nat
deriving DecidableEq, Repr, Inhabited

/-- A Solana message header. -/
structure MessageHeader where
  num_required_signatures : Nat
  num_readonly_signed_accounts : Nat
  num_readonly_unsigned_accounts : Nat
deriving DecidableEq, Repr, Inhabited

/-- A decoded Solana transaction message (legacy or v0): header,
static account keys, recent blockhash and compiled instructions. -/
structure Message where
  header : MessageHeader
  account_keys : List String
  recent_blockhash : String
  instructions : List CompiledInstruction
deriving DecidableEq, Repr, Inhabited

/-- A decoded Solana transaction: signature list (one 64-byte entry
per required signer; zeroed when absent) plus the message. -/
structure Transaction where
  signatures : List (List Nat)
  message : Message
deriving DecidableEq, Repr, Inhabited

/-- Helper for `pyIntParse`: fold decimal digits into an accumulator,
failing on any non-digit character. -/
def pyIntParseAux : List Char → Nat → Option Nat
  | [], acc => some acc
  | c :: cs, acc =>
    if c.isDigit then pyIntParseAux cs (acc * 10 + (c.toNat - 48)) else none

/-- Models the CPython call `int(s)` on strings of decimal digits
(the form `maxAmountRequired` takes everywhere in this system).
Strings on which `int` raises ValueError map to `none`; forms such as
leading whitespace or an explicit sign, which CPython would also
accept, are outside the scope of the claims and also map to `none`. -/
def pyIntParse (s : String) : Option Nat :=
  if s.isEmpty then none else pyIntParseAux s.data 0

/-- Little-endian unsigned 64-bit decode of bytes
`data[off .. off+8)`, as `struct.unpack("<Q", data[off:off+8])`. -/
def u64le (data : List Nat) (off : Nat) : Nat :=
  ((data.drop off).take 8).reverse.foldl (fun acc b => acc * 256 + b) 0

/-- facilitator.py lines 297-311, `_is_compute_budget_instruction`:
checks that the instruction targets the compute-budget program and its
first data byte equals `disc`.  `none` models the IndexError raised
when `program_id_index` is out of range of `account_keys`. -/
def is_compute_budget_instruction (keys : List String) (ix : CompiledInstruction)
    (disc : Nat) : Option Bool :=
  match keys.get? ix.program_id_index with
  | none => none
  | some pid =>
    if pid ≠ COMPUTE_BUDGET_PROGRAM then some false
    else if ix.data.length < 1 then some false
    else some (decide (ix.data.getD 0 0 = disc))

/-- One iteration of the loop at facilitator.py lines 127-132: given
the running `(compute_budget_count, price_instruction_idx)` state and
the instruction at position `idx`, update the state. -/
def cbStep (keys : List String) (ix : CompiledInstruction) (idx : Nat)
    (st : Nat × Option Nat) : Option (Nat × Option Nat) :=
  match is_compute_budget_instruction keys ix 2 with
  | none => none
  | some true => some (st.1 + 1, st.2)
  | some false =>
    match is_compute_budget_instruction keys ix 3 with
    | none => none
    | some true => some (st.1 + 1, some idx)
    | some false => some st

/-- The full loop `for idx in [0, 1]` of facilitator.py lines 127-132,
started from `compute_budget_count = 0`, `price_instruction_idx = None`. -/
def cbScan (keys : List String) (ix0 ix1 : CompiledInstruction) :
    Option (Nat × Option Nat) :=
  match cbStep keys ix0 0 (0, none) with
  | none => none
  | some st1 => cbStep keys ix1 1 st1

/-- facilitator.py lines 313-328, `_verify_compute_price`. -/
def verify_compute_price (s : Settings) (ix : CompiledInstruction) :
    Bool × Option String :=
  if ix.data.length < 9 then (false, some "Invalid SetComputeUnitPrice instruction")
  else if s.max_compute_unit_price < u64le ix.data 1 then
    (false, some ("Compute unit price " ++ toString (u64le ix.data 1) ++
      " exceeds max " ++ toString s.max_compute_unit_price))
  else (true, none)

/-- facilitator.py lines 383-396, `_get_associated_token_address`:
seeds are `[bytes(owner), bytes(token_program), bytes(mint)]` and the
derivation program is the associated-token program.  The PDA search
itself is the function parameter `fpa`. -/
def get_associated_token_address (fpa : List String → String → String)
    (owner mint token_program : String) : String :=
  fpa [owner, token_program, mint] ASSOCIATED_TOKEN_PROGRAM

/-- facilitator.py lines 330-381, `_verify_transfer_instruction`.
`none` models a raised exception (IndexError from `account_keys[...]`,
or ValueError from `int(requirements.max_amount_required)`). -/
def verify_transfer_instruction (fpa : List String → String → String)
    (s : Settings) (ix : CompiledInstruction) (keys : List String)
    (req : PaymentRequirements) : Option (Bool × Option String) :=
  match keys.get? ix.program_id_index with
  | none => none
  | some pid =>
    if pid ≠ SPL_TOKEN_PROGRAM ∧ pid ≠ TOKEN_2022_PROGRAM then
      some (false, some "Third instruction must be SPL Token TransferChecked")
    else if ix.data.length < 1 ∨ ix.data.getD 0 0 ≠ 12 then
      some (false, some "Expected TransferChecked instruction")
    else if ix.data.length < 10 then
      some (false, some "Invalid TransferChecked data")
    else
      match pyIntParse req.max_amount_required with
      | none => none
      | some required =>
        if u64le ix.data 1 ≠ required then
          some (false, some ("Amount " ++ toString (u64le ix.data 1) ++
            " does not match required " ++ toString required))
        else if ix.data.getD 9 0 ≠ s.usdc_decimals then
          some (false, some ("Decimals " ++ toString (ix.data.getD 9 0) ++
            " does not match expected " ++ toString s.usdc_decimals))
        else if ix.accounts.length < 4 then
          some (false, some "TransferChecked requires 4 accounts")
        else
          match keys.get? (ix.accounts.getD 1 0) with
          | none => none
          | some mint =>
            if mint ≠ req.asset then
              some (false, some ("Mint " ++ mint ++ " does not match required " ++ req.asset))
            else
              match keys.get? (ix.accounts.getD 2 0) with
              | none => none
              | some destination =>
                if destination ≠ get_associated_token_address fpa req.pay_to req.asset pid then
                  some (false, some ("Destination " ++ destination ++
                    " does not match expected ATA " ++
                    get_associated_token_address fpa req.pay_to req.asset pid))
                else some (true, none)

/-- Inner loop of facilitator.py lines 158-163: scan the account
indices of one instruction for the fee payer.  `some true` means the
fee payer was found, `some false` means the scan completed without
finding it, `none` models the IndexError on an out-of-range index. -/
def fee_payer_scan_accounts (keys : List String) (fp : String) :
    List Nat → Option Bool
  | [] => some false
  | a :: rest =>
    match keys.get? a with
    | none => none
    | some k => if k = fp then some true else fee_payer_scan_accounts keys fp rest

/-- Outer loop of facilitator.py lines 157-163: scan every instruction
for the fee payer among its referenced accounts. -/
def fee_payer_scan (keys : List String) (fp : String) :
    List CompiledInstruction → Option Bool
  | [] => some false
  | ix :: rest =>
    match fee_payer_scan_accounts keys fp ix.accounts with
    | none => none
    | some true => some true
    | some false => fee_payer_scan keys fp rest

/-- Stage 5 of `verify` (facilitator.py lines 155-166): the fee-payer
isolation check, then the valid response. -/
def verifyFeePayerStage (keys : List String) (ixs : List CompiledInstruction)
    (req : PaymentRequirements) : VerifyResponse :=
  match fee_payer_scan keys req.extra.fee_payer ixs with
  | none => ⟨false, some "list index out of range"⟩
  | some true => ⟨false, some "Fee payer must not be in instruction accounts"⟩
  | some false => ⟨true, none⟩

/-- Stage 4 of `verify` (facilitator.py lines 146-153): the
transfer-checked instruction check on `instructions[2]`. -/
def verifyTransferStage (fpa : List String → String → String) (s : Settings)
    (keys : List String) (ixs : List CompiledInstruction)
    (req : PaymentRequirements) : VerifyResponse :=
  match verify_transfer_instruction fpa s (ixs.getD 2 default) keys req with
  | none => ⟨false, some "list index out of range"⟩
  | some (false, reason) => ⟨false, reason⟩
  | some (true, _) => verifyFeePayerStage keys ixs req

/-- Stage 3 of `verify` (facilitator.py lines 140-144): the
compute-unit-price bound check, applied to the instruction recorded by
the scan, when any. -/
def verifyPriceStage (fpa : List String → String → String) (s : Settings)
    (keys : List String) (ixs : List CompiledInstruction)
    (req : PaymentRequirements) : Option Nat → VerifyResponse
  | some pi =>
    match verify_compute_price s (ixs.getD pi default) with
    | (false, reason) => ⟨false, reason⟩
    | (true, _) => verifyTransferStage fpa s keys ixs req
  | none => verifyTransferStage fpa s keys ixs req

/-- Stage 2 of `verify` (facilitator.py lines 123-138): the
compute-budget prelude scan over instructions 0 and 1. -/
def verifyBudgetStage (fpa : List String → String → String) (s : Settings)
    (keys : List String) (ixs : List CompiledInstruction)
    (req : PaymentRequirements) : VerifyResponse :=
  match cbScan keys (ixs.getD 0 default) (ixs.getD 1 default) with
  | none => ⟨false, some "list index out of range"⟩
  | some (count, priceIdx) =>
    if count ≠ 2 then
      ⟨false, some "First 2 instructions must be ComputeBudget instructions"⟩
    else verifyPriceStage fpa s keys ixs req priceIdx

/-- facilitator.py lines 82-170, `SolanaFacilitator.verify`, applied to
an already decoded transaction.  `fpa` is the PDA derivation used by
the ATA computation; `s` carries the settings read by the checks. -/
def verify (fpa : List String → String → String) (s : Settings)
    (tx : Transaction) (req : PaymentRequirements) : VerifyResponse :=
  if tx.message.instructions.length ≠ 3 then
    ⟨false, some ("Expected 3 instructions, got " ++
      toString tx.message.instructions.length)⟩
  else verifyBudgetStage fpa s tx.message.account_keys tx.message.instructions req

/-! ### Settlement model

`SolanaFacilitator.settle` (facilitator.py lines 172-295).  The chain
interactions are recorded as an ordered trace of `RpcCall` values, so
that "no chain interaction happened" is the empty trace.  The solders
serializers and Ed25519 signing are passed in as function parameters:
`msgBytes` models `bytes(message)`, `msgHash` models
`bytes(message.hash())`, and `Keypair.sign` models
`Keypair.sign_message`.  The RPC client is modelled as always
reachable; RPC transport failures only add error paths after the ones
the claims are about. -/

/-- One RPC interaction performed by `settle`. -/
inductive RpcCall where
  | getLatestBlockhash : RpcCall
  | sendTransaction : Transaction → RpcCall
deriving DecidableEq, Repr

/-- The facilitator keypair: public key (base58) and the Ed25519
signing function over message bytes. -/
structure Keypair where
  pubkey : String
  sign : List Nat → List Nat

/-- CPython `str(x)` on an optional string, as used by the f-string
`f"Verification failed: {verify_result.invalid_reason}"`. -/
def pyStrOption : Option String → String
  | some s => s
  | none => "None"

/-- facilitator.py lines 248-255: start from the existing signature
list and write the facilitator signature at every position `i` below
`num_required_signatures` whose account key equals the facilitator
public key. -/
def place_facilitator_signature (keys : List String) (n : Nat) (pk : String)
    (sig : List Nat) (sigs : List (List Nat)) : List (List Nat) :=
  (List.range (min n keys.length)).foldl
    (fun acc i => if keys.getD i "" = pk then acc.set i sig else acc) sigs

/-- facilitator.py lines 172-295, `SolanaFacilitator.settle`, applied
to an already decoded transaction.  `isLegacy` records which of the
two parse branches succeeded for the payment header.  Returns the
settle response together with the ordered trace of RPC interactions. -/
def settle (fpa : List String → String → String) (s : Settings)
    (kp : Option Keypair) (msgBytes msgHash : Message → List Nat)
    (rpcSendResult : String) (tx : Transaction) (isLegacy : Bool)
    (req : PaymentRequirements) : SettleResponse × List RpcCall :=
  match kp with
  | none => (⟨false, some "Facilitator not configured", none, none, none⟩, [])
  | some k =>
    match verify fpa s tx req with
    | ⟨false, r⟩ =>
      (⟨false, some ("Verification failed: " ++ pyStrOption r), none, none, none⟩, [])
    | ⟨true, _⟩ =>
      (⟨true, none, some rpcSendResult, some s.solana_network, some k.pubkey⟩,
        [RpcCall.getLatestBlockhash,
          RpcCall.sendTransaction
            (if isLegacy then
              ⟨place_facilitator_signature tx.message.account_keys
                  tx.message.header.num_required_signatures k.pubkey
                  (k.sign (msgBytes tx.message)) tx.signatures,
                tx.message⟩
            else
              ⟨tx.signatures ++ [k.sign (msgHash tx.message)], tx.message⟩)])

/-! ### Requirement builder and the IEEE-754 binary64 model

main.py lines 154-181 convert the USD price string with
`float(request.price.replace("$", ""))` and
`int(price_usd * (10 ** settings.usdc_decimals))`.  CPython floats are
IEEE-754 binary64 values; binary64 arithmetic is modelled exactly over
`ℚ`: a float value is the rational it denotes, `float(s)` rounds the
exact decimal to 53 significant bits (round to nearest, ties to even),
multiplication rounds the exact product the same way, and `int(...)`
truncates toward zero.  The model covers the normal, non-overflowing
range (magnitudes between 2^-1022 and 2^1024), which contains every
value below; subnormals and infinities are not reachable from the
inputs of the claims. -/

/-- Exact fractions as numerator-denominator pairs.  Every
constructor application in this development keeps the denominator
positive; fractions are not normalised (Mathlib `Rat` normalisation
runs `Nat.gcd`, which the kernel does not reduce, so `decide` could
not evaluate the model). -/
structure Frac where
  num : Int
  den : Nat
deriving Repr

/-- Fraction multiplication. -/
def Frac.mul (x y : Frac) : Frac := ⟨x.num * y.num, x.den * y.den⟩

/-- Multiply a fraction by a natural number. -/
def Frac.scaleNat (x : Frac) (n : Nat) : Frac := ⟨x.num * n, x.den⟩

/-- Floor of a fraction with positive denominator. -/
def Frac.floor (x : Frac) : Int := Int.fdiv x.num x.den

/-- Two to an integer power, as a fraction. -/
def pow2 : Int → Frac
  | Int.ofNat n => ⟨2 ^ n, 1⟩
  | Int.negSucc n => ⟨1, 2 ^ (n + 1)⟩

/-- Round a fraction (positive denominator) to the nearest integer,
ties to even: the remainder `x - ⌊x⌋ = r / den` is compared with one
half by comparing `2 * r` with `den`. -/
def roundHalfEvenF (x : Frac) : Int :=
  if 2 * (x.num - x.floor * x.den) < (x.den : Int) then x.floor
  else if (x.den : Int) < 2 * (x.num - x.floor * x.den) then x.floor + 1
  else if x.floor % 2 = 0 then x.floor else x.floor + 1

/-- Fuelled base-2 logarithm on naturals (`Nat.log2` is defined by
well-founded recursion, which the kernel does not reduce; this
structural version does, and 1200 units of fuel cover the whole
binary64 range). -/
def log2fuel : Nat → Nat → Nat
  | _, 0 => 0
  | n, fuel + 1 => if 2 ≤ n then log2fuel (n / 2) fuel + 1 else 0

/-- Fuelled search for the smallest `k` with `n * 2 ^ k ≥ d`, that is
with `(n / d) * 2 ^ k ≥ 1` for a fraction `n / d` below one. -/
def negExpAux : Nat → Nat → Nat → Nat
  | _, _, 0 => 0
  | n, d, fuel + 1 => if d ≤ n then 0 else negExpAux (2 * n) d fuel + 1

/-- `⌊log2 x⌋` for a positive fraction in the binary64 range: the
integer `e` with `2 ^ e ≤ x < 2 ^ (e + 1)`. -/
def floorLog2 (x : Frac) : Int :=
  if (x.den : Int) ≤ x.num then (log2fuel x.floor.toNat 1200 : Int)
  else -(negExpAux x.num.toNat x.den 1200 : Int)

/-- Round a positive fraction to the nearest binary64 value (53
significant bits, round to nearest, ties to even), returned as the
exact fraction it denotes. -/
def roundToDoublePos (x : Frac) : Frac :=
  (Frac.mk (roundHalfEvenF (x.mul (pow2 (52 - floorLog2 x)))) 1).mul
    (pow2 (floorLog2 x - 52))

/-- Round any fraction in the normal binary64 range to the nearest
binary64 value. -/
def roundToDouble (x : Frac) : Frac :=
  if x.num = 0 then ⟨0, 1⟩
  else if x.num < 0 then
    ⟨-(roundToDoublePos ⟨-x.num, x.den⟩).num, (roundToDoublePos ⟨-x.num, x.den⟩).den⟩
  else roundToDoublePos x

/-- Parse a plain decimal literal (`digits`, `digits.digits`,
`.digits` or `digits.`) into the exact fraction it denotes.  This is
the fragment of the CPython `float(str)` grammar exercised by the
system; other accepted forms (signs, exponents, whitespace, inf/nan)
are not reachable from the claims and map to `none`. -/
def parseDecimalExact (s : String) : Option Frac :=
  match s.data.splitOn '.' with
  | [i] =>
    if i.isEmpty then none
    else (pyIntParseAux i 0).map (fun a => (⟨a, 1⟩ : Frac))
  | [i, f] =>
    if i.isEmpty ∧ f.isEmpty then none
    else
      match pyIntParseAux i 0, pyIntParseAux f 0 with
      | some a, some b => some ⟨a * 10 ^ f.length + b, 10 ^ f.length⟩
      | _, _ => none
  | _ => none

/-- CPython `float(s)`: the decimal value of `s` rounded to the
nearest binary64. -/
def pyFloatOfString (s : String) : Option Frac :=
  (parseDecimalExact s).map roundToDouble

/-- CPython multiplication of a binary64 by the (exactly converted)
natural number `n`, rounding the product to the nearest binary64. -/
def pyFloatMulNat (x : Frac) (n : Nat) : Frac :=
  roundToDouble (x.scaleNat n)

/-- CPython `int(x)` on a float: truncation toward zero. -/
def pyIntOfFloat (x : Frac) : Int :=
  if 0 ≤ x.num then x.floor else -(Frac.floor ⟨-x.num, x.den⟩)

/-- CPython `price.replace("$", "")`: removes every dollar sign. -/
def pyReplaceDollar (s : String) : String :=
  ⟨s.data.filter (fun c => c ≠ '$')⟩

/-- main.py lines 158-159: the amount computation of
`generate_requirements`, `int(float(price.replace("$", "")) *
(10 ** decimals))`.  `none` models the raised ValueError (surfaced as
HTTP 500) on an unparsable price. -/
def amount_atomic (price : String) (decimals : Nat) : Option Int :=
  (pyFloatOfString (pyReplaceDollar price)).map
    (fun f => pyIntOfFloat (pyFloatMulNat f (10 ^ decimals)))

/-- main.py lines 154-181, `generate_requirements`: build the
`PaymentRequirements` record for a price string. -/
def generate_requirements (s : Settings) (feePayerPubkey : String)
    (price payTo resource description : String) (timeoutSeconds : Nat) :
    Option PaymentRequirements :=
  (amount_atomic price s.usdc_decimals).map (fun amt =>
    ⟨"exact", s.solana_network.replace "-beta" "", toString amt, s.usdc_mint,
      payTo, resource, description, "application/json", timeoutSeconds,
      ⟨feePayerPubkey⟩⟩)

/-- Strip one leading dollar sign, per the wording of the
specification. -/
def stripLeadingDollar (s : String) : String :=
  match s.data with
  | [] => s
  | c :: rest => if c = '$' then ⟨rest⟩ else s

/-- Modelled from the spec (spec.md section 4.3), for comparison with
`amount_atomic`, which models the code: "strip a leading `$` if
present, parse as decimal, multiply by `10^decimals` using
rounding-to-nearest-even, clamp to `[1, 2^64 - 1]`". -/
def spec_price_to_atomic (price : String) (decimals : Nat) : Option Int :=
  (parseDecimalExact (stripLeadingDollar price)).map
    (fun q => max 1 (min (roundHalfEvenF (q.scaleNat (10 ^ decimals))) (2 ^ 64 - 1)))

/-! ### Concrete fixtures

A concrete PDA derivation, settings value, requirement and a family of
concrete transactions used by counterexamples and witnesses.  Pubkey
atoms such as `"SENDER"` stand for arbitrary distinct base58 keys. -/

/-- A concrete PDA derivation for fixtures: every seed list derives the
address `"DEST"`. -/
def fpa0 : List String → String → String := fun _ _ => "DEST"

/-- Concrete settings fixture: 6 USDC decimals, max compute-unit price
5 (the defaults of config.py), mint `"MINT"`. -/
def settings0 : Settings := ⟨"MINT", 6, 5, "mainnet-beta"⟩

/-- Concrete payment requirement fixture: 10000 atomic units of mint
`"MINT"` payable to `"PAYTO"`, fee payer `"FEE"`. -/
def req0 : PaymentRequirements :=
  ⟨"exact", "solana", "10000", "MINT", "PAYTO", "https://example.com/r", "",
    "application/json", 60, ⟨"FEE"⟩⟩

/-- Account-key table of the fixture transactions: sender, source
token account, mint, destination token account, then the two program
ids referenced by the instructions. -/
def keys0 : List String :=
  ["SENDER", "SRC", "MINT", "DEST", COMPUTE_BUDGET_PROGRAM, SPL_TOKEN_PROGRAM]

/-- SetComputeUnitLimit instruction: discriminator 2, u32 payload. -/
def ixLimit : CompiledInstruction := ⟨4, [], [2, 64, 66, 15, 0]⟩

/-- SetComputeUnitPrice instruction: discriminator 3, price 1 (u64 LE). -/
def ixPrice : CompiledInstruction := ⟨4, [], [3, 1, 0, 0, 0, 0, 0, 0, 0]⟩

/-- TransferChecked instruction: discriminator 12, amount 10000 (u64
LE bytes 16, 39), decimals 6; accounts source, mint, destination,
authority = key indices 1, 2, 3, 0. -/
def ixTransfer : CompiledInstruction :=
  ⟨5, [1, 2, 3, 0], [12, 16, 39, 0, 0, 0, 0, 0, 0, 6]⟩

/-- A transaction the verifier accepts against `req0`: compute-unit
limit, compute-unit price, transfer-checked. -/
def txValid : Transaction :=
  ⟨[List.replicate 64 0, List.replicate 64 0],
    ⟨⟨2, 0, 1⟩, keys0, "BLOCKHASH1111111111111111111111111111111111", [ixLimit, ixPrice, ixTransfer]⟩⟩

/-- `txValid` with `numRequiredSignatures = 7` in the header. -/
def txHeader7 : Transaction :=
  ⟨txValid.signatures,
    ⟨⟨7, 0, 1⟩, keys0, txValid.message.recent_blockhash, [ixLimit, ixPrice, ixTransfer]⟩⟩

/-- A second SetComputeUnitLimit instruction (discriminator 2). -/
def ixLimit2 : CompiledInstruction := ⟨4, [], [2, 1, 0, 0, 0]⟩

/-- `txValid` with two SetComputeUnitLimit instructions and no
SetComputeUnitPrice instruction at all. -/
def txBothLimit : Transaction :=
  ⟨txValid.signatures,
    ⟨⟨2, 0, 1⟩, keys0, txValid.message.recent_blockhash, [ixLimit, ixLimit2, ixTransfer]⟩⟩

/-- TransferChecked instruction with five account indices: the extra
fifth account repeats the source account. -/
def ixTransfer5 : CompiledInstruction :=
  ⟨5, [1, 2, 3, 0, 1], [12, 16, 39, 0, 0, 0, 0, 0, 0, 6]⟩

/-- `txValid` with a five-account transfer-checked instruction. -/
def txFiveAccounts : Transaction :=
  ⟨txValid.signatures,
    ⟨⟨2, 0, 1⟩, keys0, txValid.message.recent_blockhash, [ixLimit, ixPrice, ixTransfer5]⟩⟩

/-- TransferChecked instruction carrying amount 9999 (u64 LE bytes
15, 39) instead of the required 10000. -/
def ixTransfer9999 : CompiledInstruction :=
  ⟨5, [1, 2, 3, 0], [12, 15, 39, 0, 0, 0, 0, 0, 0, 6]⟩

/-- `txValid` with the transfer amount changed to 9999. -/
def txWrongAmount : Transaction :=
  ⟨txValid.signatures,
    ⟨⟨2, 0, 1⟩, keys0, txValid.message.recent_blockhash, [ixLimit, ixPrice, ixTransfer9999]⟩⟩

/-- A transaction with no instructions at all. -/
def txEmpty : Transaction :=
  ⟨[], ⟨⟨2, 0, 1⟩, [], "BLOCKHASH1111111111111111111111111111111111", []⟩⟩

/-- A concrete facilitator keypair whose signing function is the
identity, so that a produced signature displays exactly the bytes that
were signed. -/
def kpId : Keypair := ⟨"FEE", fun m => m⟩

/-- A concrete stand-in for `bytes(message)`. -/
def mBytes : Message → List Nat := fun _ => [1, 2, 3]

/-- A concrete stand-in for `bytes(message.hash())`, chosen different
from `mBytes` of the same message. -/
def mHash : Message → List Nat := fun _ => [9, 9]

/-! ### Helper lemmas about the verifier -/

set_option maxRecDepth 100000

/-- What `_is_compute_budget_instruction` returning `True` means. -/
lemma is_cb_true {keys : List String} {ix : CompiledInstruction} {d : Nat}
    (h : is_compute_budget_instruction keys ix d = some true) :
    keys.get? ix.program_id_index = some COMPUTE_BUDGET_PROGRAM ∧
      1 ≤ ix.data.length ∧ ix.data.getD 0 0 = d := by
  unfold is_compute_budget_instruction at h
  split at h
  · exact absurd h (by simp)
  next pid heq =>
    split at h
    · exact absurd h (by simp)
    next hpid =>
      split at h
      · exact absurd h (by simp)
      next hlen =>
        rw [not_not] at hpid
        subst hpid
        refine ⟨heq, by omega, ?_⟩
        simpa using h

/-- A compute-budget instruction whose discriminator is `d` is not
recognised for a different discriminator `d2`. -/
lemma is_cb_false_of_ne {keys : List String} {ix : CompiledInstruction} {d d2 : Nat}
    (h : is_compute_budget_instruction keys ix d = some true)
    (hne : d ≠ d2) :
    is_compute_budget_instruction keys ix d2 = some false := by
  obtain ⟨hk, hl, hd⟩ := is_cb_true h
  unfold is_compute_budget_instruction
  rw [hk]
  have hnl : ¬ ix.data.length < 1 := by omega
  rw [List.getD_eq_getElem?_getD] at hd
  simp [hnl, hd, hne]

/-- Case analysis on one iteration of the compute-budget loop. -/
lemma cbStep_cases {keys : List String} {ix : CompiledInstruction} {idx : Nat}
    {st st2 : Nat × Option Nat} (h : cbStep keys ix idx st = some st2) :
    (is_compute_budget_instruction keys ix 2 = some true ∧ st2 = (st.1 + 1, st.2)) ∨
    (is_compute_budget_instruction keys ix 2 = some false ∧
      is_compute_budget_instruction keys ix 3 = some true ∧ st2 = (st.1 + 1, some idx)) ∨
    (is_compute_budget_instruction keys ix 2 = some false ∧
      is_compute_budget_instruction keys ix 3 = some false ∧ st2 = st) := by
  unfold cbStep at h
  split at h
  · exact absurd h (by simp)
  next heq2 =>
    left
    refine ⟨heq2, ?_⟩
    exact (Option.some.injEq _ _ ▸ h).symm
  next heq2 =>
    split at h
    · exact absurd h (by simp)
    next heq3 =>
      right; left
      refine ⟨heq2, heq3, ?_⟩
      exact (Option.some.injEq _ _ ▸ h).symm
    next heq3 =>
      right; right
      refine ⟨heq2, heq3, ?_⟩
      exact (Option.some.injEq _ _ ▸ h).symm

/-- If the loop of facilitator.py lines 127-132 ends with
`compute_budget_count = 2`, both scanned instructions target the
compute-budget program with discriminator 2 or 3. -/
lemma cbScan_two {keys : List String} {i0 i1 : CompiledInstruction} {p : Option Nat}
    (h : cbScan keys i0 i1 = some (2, p)) :
    (keys.get? i0.program_id_index = some COMPUTE_BUDGET_PROGRAM ∧
      1 ≤ i0.data.length ∧ (i0.data.getD 0 0 = 2 ∨ i0.data.getD 0 0 = 3)) ∧
    (keys.get? i1.program_id_index = some COMPUTE_BUDGET_PROGRAM ∧
      1 ≤ i1.data.length ∧ (i1.data.getD 0 0 = 2 ∨ i1.data.getD 0 0 = 3)) := by
  unfold cbScan at h
  split at h
  · exact absurd h (by simp)
  next st1 heq1 =>
    rcases cbStep_cases heq1 with ⟨ha, hst⟩ | ⟨_, ha, hst⟩ | ⟨_, _, hst⟩ <;>
      rcases cbStep_cases h with ⟨hb, hab⟩ | ⟨_, hb, hab⟩ | ⟨_, hb2, hab⟩ <;>
      subst hst <;>
      simp only [Prod.mk.injEq] at hab
    · obtain ⟨c0, _, d0⟩ := is_cb_true ha
      obtain ⟨c1, _, d1⟩ := is_cb_true hb
      exact ⟨⟨c0, by omega, Or.inl d0⟩, ⟨c1, by omega, Or.inl d1⟩⟩
    · obtain ⟨c0, _, d0⟩ := is_cb_true ha
      obtain ⟨c1, _, d1⟩ := is_cb_true hb
      exact ⟨⟨c0, by omega, Or.inl d0⟩, ⟨c1, by omega, Or.inr d1⟩⟩
    · omega
    · obtain ⟨c0, _, d0⟩ := is_cb_true ha
      obtain ⟨c1, _, d1⟩ := is_cb_true hb
      exact ⟨⟨c0, by omega, Or.inr d0⟩, ⟨c1, by omega, Or.inl d1⟩⟩
    · obtain ⟨c0, _, d0⟩ := is_cb_true ha
      obtain ⟨c1, _, d1⟩ := is_cb_true hb
      exact ⟨⟨c0, by omega, Or.inr d0⟩, ⟨c1, by omega, Or.inr d1⟩⟩
    · omega
    · omega
    · omega
    · omega

/-- If the second scanned instruction has discriminator 3, the
recorded price-instruction index is 1. -/
lemma cbScan_price_last {keys : List String} {i0 i1 : CompiledInstruction}
    {c : Nat} {p : Option Nat} (h : cbScan keys i0 i1 = some (c, p))
    (h3 : is_compute_budget_instruction keys i1 3 = some true) : p = some 1 := by
  have h2 : is_compute_budget_instruction keys i1 2 = some false :=
    is_cb_false_of_ne h3 (by omega)
  unfold cbScan at h
  split at h
  · exact absurd h (by simp)
  next st1 heq1 =>
    rcases cbStep_cases h with ⟨g2, _⟩ | ⟨_, _, gst⟩ | ⟨_, g3, _⟩
    · rw [g2] at h2; exact absurd h2 (by simp)
    · simp only [Prod.mk.injEq] at gst
      exact gst.2
    · rw [g3] at h3; exact absurd h3 (by simp)

/-- If the second scanned instruction has discriminator 2 and the
first has discriminator 3, the recorded price-instruction index is 0. -/
lemma cbScan_price_first {keys : List String} {i0 i1 : CompiledInstruction}
    {c : Nat} {p : Option Nat} (h : cbScan keys i0 i1 = some (c, p))
    (h2 : is_compute_budget_instruction keys i1 2 = some true)
    (h3 : is_compute_budget_instruction keys i0 3 = some true) : p = some 0 := by
  have h02 : is_compute_budget_instruction keys i0 2 = some false :=
    is_cb_false_of_ne h3 (by omega)
  unfold cbScan at h
  split at h
  · exact absurd h (by simp)
  next st1 heq1 =>
    rcases cbStep_cases heq1 with ⟨g2, _⟩ | ⟨_, _, gst⟩ | ⟨_, g3, _⟩
    · rw [g2] at h02; exact absurd h02 (by simp)
    · subst gst
      rcases cbStep_cases h with ⟨_, fst⟩ | ⟨f2, _, _⟩ | ⟨_, _, fst⟩
      · simp only [Prod.mk.injEq] at fst
        exact fst.2
      · rw [f2] at h2; exact absurd h2 (by simp)
      · simp only [Prod.mk.injEq] at fst
        exact fst.2
    · rw [g3] at h3; exact absurd h3 (by simp)

/-- What `_verify_transfer_instruction` returning `(True, None)`
guarantees. -/
lemma transfer_valid {fpa : List String → String → String} {s : Settings}
    {ix : CompiledInstruction} {keys : List String} {req : PaymentRequirements}
    {r : Option String}
    (h : verify_transfer_instruction fpa s ix keys req = some (true, r)) :
    ∃ pid, keys.get? ix.program_id_index = some pid ∧
      (pid = SPL_TOKEN_PROGRAM ∨ pid = TOKEN_2022_PROGRAM) ∧
      ix.data.getD 0 0 = 12 ∧ 10 ≤ ix.data.length ∧
      pyIntParse req.max_amount_required = some (u64le ix.data 1) ∧
      ix.data.getD 9 0 = s.usdc_decimals ∧ 4 ≤ ix.accounts.length ∧
      keys.get? (ix.accounts.getD 1 0) = some req.asset ∧
      keys.get? (ix.accounts.getD 2 0) =
        some (get_associated_token_address fpa req.pay_to req.asset pid) := by
  unfold verify_transfer_instruction at h
  split at h
  · exact absurd h (by simp)
  next pid heq =>
    split at h
    · exact absurd h (by simp)
    next hprog =>
      split at h
      · exact absurd h (by simp)
      next hdisc =>
        split at h
        · exact absurd h (by simp)
        next hlen =>
          split at h
          · exact absurd h (by simp)
          next required hreq =>
            split at h
            · exact absurd h (by simp)
            next hamt =>
              split at h
              · exact absurd h (by simp)
              next hdec =>
                split at h
                · exact absurd h (by simp)
                next hacc =>
                  split at h
                  · exact absurd h (by simp)
                  next mint hmint =>
                    split at h
                    · exact absurd h (by simp)
                    next hmintne =>
                      split at h
                      · exact absurd h (by simp)
                      next dest hdest =>
                        split at h
                        · exact absurd h (by simp)
                        next hdestne =>
                          push_neg at hdisc hlen hamt hdec hacc hmintne hdestne
                          rw [not_and_or, not_not, not_not] at hprog
                          rw [hmintne] at hmint
                          rw [hdestne] at hdest
                          rw [← hamt] at hreq
                          exact ⟨pid, heq, hprog, hdisc.2, hlen, hreq,
                            hdec, by omega, hmint, hdest⟩
/-- A completed inner fee-payer scan means every referenced account
index is in range and the key there is not the fee payer. -/
lemma fee_payer_scan_accounts_false {keys : List String} {fp : String}
    {as : List Nat} (h : fee_payer_scan_accounts keys fp as = some false) :
    ∀ a ∈ as, ∃ k, keys.get? a = some k ∧ k ≠ fp := by
  induction as with
  | nil => intro a ha; cases ha
  | cons b rest ih =>
    intro a ha
    unfold fee_payer_scan_accounts at h
    rcases List.mem_cons.mp ha with rfl | hmem
    · revert h
      split
      · intro h; exact absurd h (by simp)
      next k hk =>
        split
        · intro h; exact absurd h (by simp)
        next hne => intro h; exact ⟨k, hk, hne⟩
    · revert h
      split
      · intro h; exact absurd h (by simp)
      next k hk =>
        split
        · intro h; exact absurd h (by simp)
        next hne => intro h; exact ih h a hmem

/-- A completed outer fee-payer scan means no instruction references
the fee payer through its account indices. -/
lemma fee_payer_scan_false {keys : List String} {fp : String}
    {ixs : List CompiledInstruction} (h : fee_payer_scan keys fp ixs = some false) :
    ∀ ix ∈ ixs, ∀ a ∈ ix.accounts, ∃ k, keys.get? a = some k ∧ k ≠ fp := by
  induction ixs with
  | nil => intro ix hix; cases hix
  | cons jx rest ih =>
    intro ix hix
    unfold fee_payer_scan at h
    rcases List.mem_cons.mp hix with rfl | hmem
    · revert h
      split
      · intro h; exact absurd h (by simp)
      · intro h; exact absurd h (by simp)
      next hscan => intro h; exact fee_payer_scan_accounts_false hscan
    · revert h
      split
      · intro h; exact absurd h (by simp)
      · intro h; exact absurd h (by simp)
      next hscan => intro h; exact ih h ix hmem

/-- Stage 5 accepted: the fee-payer scan completed without a hit. -/
lemma feePayerStage_valid {keys : List String} {ixs : List CompiledInstruction}
    {req : PaymentRequirements}
    (h : (verifyFeePayerStage keys ixs req).is_valid = true) :
    fee_payer_scan keys req.extra.fee_payer ixs = some false := by
  unfold verifyFeePayerStage at h
  split at h
  · exact absurd h (by simp)
  · exact absurd h (by simp)
  next hscan => exact hscan

/-- Stage 4 accepted: the transfer instruction check passed and
stage 5 accepted. -/
lemma transferStage_valid {fpa : List String → String → String} {s : Settings}
    {keys : List String} {ixs : List CompiledInstruction} {req : PaymentRequirements}
    (h : (verifyTransferStage fpa s keys ixs req).is_valid = true) :
    (∃ r, verify_transfer_instruction fpa s (ixs.getD 2 default) keys req =
      some (true, r)) ∧ (verifyFeePayerStage keys ixs req).is_valid = true := by
  unfold verifyTransferStage at h
  split at h
  · exact absurd h (by simp)
  · exact absurd h (by simp)
  next r heq => exact ⟨⟨r, heq⟩, h⟩

/-- Stage 3 accepted: any recorded price instruction passed the
compute-unit-price bound, and stage 4 accepted. -/
lemma priceStage_valid {fpa : List String → String → String} {s : Settings}
    {keys : List String} {ixs : List CompiledInstruction} {req : PaymentRequirements}
    {p : Option Nat} (h : (verifyPriceStage fpa s keys ixs req p).is_valid = true) :
    (∀ pi, p = some pi → (verify_compute_price s (ixs.getD pi default)).1 = true) ∧
      (verifyTransferStage fpa s keys ixs req).is_valid = true := by
  cases p with
  | none => exact ⟨fun pi hpi => (nomatch hpi), h⟩
  | some pi =>
    simp only [verifyPriceStage] at h
    split at h
    · exact absurd h (by simp)
    next snd heq =>
      refine ⟨?_, h⟩
      intro pi2 hpi2
      injection hpi2 with hpi2
      subst hpi2
      rw [heq]

/-- Stage 2 accepted: the compute-budget scan completed with count 2
and stage 3 accepted for the recorded price index. -/
lemma budgetStage_valid {fpa : List String → String → String} {s : Settings}
    {keys : List String} {ixs : List CompiledInstruction} {req : PaymentRequirements}
    (h : (verifyBudgetStage fpa s keys ixs req).is_valid = true) :
    ∃ p, cbScan keys (ixs.getD 0 default) (ixs.getD 1 default) = some (2, p) ∧
      (verifyPriceStage fpa s keys ixs req p).is_valid = true := by
  unfold verifyBudgetStage at h
  split at h
  · exact absurd h (by simp)
  next count p heq =>
    revert h
    split
    · intro h; exact absurd h (by simp)
    next hcount =>
      intro h
      rw [not_not] at hcount
      subst hcount
      exact ⟨p, heq, h⟩

/-- Everything a `verify` acceptance guarantees, stated over the code
stages: exactly three instructions, compute-budget scan with count 2,
price bound on the recorded price instruction, transfer-checked
acceptance, and a fee-payer scan without a hit. -/
lemma verify_valid_parts {fpa : List String → String → String} {s : Settings}
    {tx : Transaction} {req : PaymentRequirements}
    (h : (verify fpa s tx req).is_valid = true) :
    tx.message.instructions.length = 3 ∧
    ∃ p, cbScan tx.message.account_keys (tx.message.instructions.getD 0 default)
        (tx.message.instructions.getD 1 default) = some (2, p) ∧
      (∀ pi, p = some pi →
        (verify_compute_price s (tx.message.instructions.getD pi default)).1 = true) ∧
      (∃ r, verify_transfer_instruction fpa s (tx.message.instructions.getD 2 default)
        tx.message.account_keys req = some (true, r)) ∧
      fee_payer_scan tx.message.account_keys req.extra.fee_payer
        tx.message.instructions = some false := by
  unfold verify at h
  revert h
  split
  · intro h; exact absurd h (by simp)
  next hlen =>
    intro h
    rw [not_not] at hlen
    obtain ⟨p, hscan, hprice⟩ := budgetStage_valid h
    obtain ⟨hpi, htrans⟩ := priceStage_valid hprice
    obtain ⟨hti, hfee⟩ := transferStage_valid htrans
    exact ⟨hlen, p, hscan, hpi, hti, feePayerStage_valid hfee⟩
/-- With exactly three instructions, `verify` is its budget stage. -/
lemma verify_eq_budget {fpa : List String → String → String} {s : Settings}
    {tx : Transaction} {req : PaymentRequirements}
    (h1 : tx.message.instructions.length = 3) :
    verify fpa s tx req =
      verifyBudgetStage fpa s tx.message.account_keys tx.message.instructions req := by
  unfold verify
  exact if_neg (fun hh => hh h1)

/-- A completed compute-budget scan with count 2 passes stage 2. -/
lemma budget_eq_price {fpa : List String → String → String} {s : Settings}
    {keys : List String} {ixs : List CompiledInstruction} {req : PaymentRequirements}
    {p : Option Nat}
    (hscan : cbScan keys (ixs.getD 0 default) (ixs.getD 1 default) = some (2, p)) :
    verifyBudgetStage fpa s keys ixs req = verifyPriceStage fpa s keys ixs req p := by
  unfold verifyBudgetStage
  split
  next heq => rw [hscan] at heq; exact absurd heq (by simp)
  next count p2 heq =>
    rw [hscan] at heq
    injection heq with heq
    injection heq with hc hp
    subst hc
    subst hp
    simp

/-- A passing price check passes stage 3. -/
lemma price_eq_transfer {fpa : List String → String → String} {s : Settings}
    {keys : List String} {ixs : List CompiledInstruction} {req : PaymentRequirements}
    {pi : Nat}
    (hp : verify_compute_price s (ixs.getD pi default) = (true, none)) :
    verifyPriceStage fpa s keys ixs req (some pi) =
      verifyTransferStage fpa s keys ixs req := by
  simp only [verifyPriceStage]
  rw [hp]

/-- A failing transfer check makes stage 4 report its reason. -/
lemma transfer_eq_false {fpa : List String → String → String} {s : Settings}
    {keys : List String} {ixs : List CompiledInstruction} {req : PaymentRequirements}
    {reason : Option String}
    (htr : verify_transfer_instruction fpa s (ixs.getD 2 default) keys req =
      some (false, reason)) :
    verifyTransferStage fpa s keys ixs req = ⟨false, reason⟩ := by
  unfold verifyTransferStage
  split
  next heq => rw [htr] at heq; exact absurd heq (by simp)
  next r heq =>
    rw [htr] at heq
    injection heq with heq
    injection heq with hb hr
    rw [hr]
  next r heq =>
    rw [htr] at heq
    injection heq with heq
    injection heq with hb hr
    exact absurd hb.symm (by simp)

/-- `_verify_transfer_instruction` on an instruction that reaches the
amount comparison with a mismatching amount reports exactly the
amount-mismatch reason. -/
lemma transfer_amount_mismatch {fpa : List String → String → String} {s : Settings}
    {ix : CompiledInstruction} {keys : List String} {req : PaymentRequirements}
    {pid : String} {required : Nat}
    (h4 : keys.get? ix.program_id_index = some pid)
    (h5 : pid = SPL_TOKEN_PROGRAM ∨ pid = TOKEN_2022_PROGRAM)
    (h6 : ix.data.getD 0 0 = 12) (h7 : 10 ≤ ix.data.length)
    (h8 : pyIntParse req.max_amount_required = some required)
    (h9 : u64le ix.data 1 ≠ required) :
    verify_transfer_instruction fpa s ix keys req =
      some (false, some ("Amount " ++ toString (u64le ix.data 1) ++
        " does not match required " ++ toString required)) := by
  unfold verify_transfer_instruction
  split
  next heq => rw [h4] at heq; exact absurd heq (by simp)
  next pid2 heq =>
    rw [h4] at heq
    injection heq with heq
    subst heq
    have hp : ¬(pid ≠ SPL_TOKEN_PROGRAM ∧ pid ≠ TOKEN_2022_PROGRAM) := by
      rcases h5 with h5 | h5 <;> rw [h5] <;> simp
    rw [if_neg hp]
    have hd : ¬(ix.data.length < 1 ∨ ix.data.getD 0 0 ≠ 12) := by
      push_neg
      exact ⟨by omega, h6⟩
    rw [if_neg hd]
    rw [if_neg (by omega : ¬ ix.data.length < 10)]
    split
    next heq2 => rw [h8] at heq2; exact absurd heq2 (by simp)
    next required2 heq2 =>
      rw [h8] at heq2
      injection heq2 with heq2
      subst heq2
      rw [if_pos h9]

/-- What a passing compute-unit-price check means. -/
lemma price_ok {s : Settings} {ix : CompiledInstruction}
    (h : (verify_compute_price s ix).1 = true) :
    9 ≤ ix.data.length ∧ u64le ix.data 1 ≤ s.max_compute_unit_price := by
  unfold verify_compute_price at h
  split at h
  · exact absurd h (by simp)
  next hlen =>
    split at h
    · exact absurd h (by simp)
    next hpr =>
      push_neg at hlen hpr
      exact ⟨hlen, hpr⟩

/-- Recognition of a compute-budget instruction from its parts. -/
lemma is_cb_true_intro {keys : List String} {ix : CompiledInstruction} {d : Nat}
    (hk : keys.get? ix.program_id_index = some COMPUTE_BUDGET_PROGRAM)
    (hl : 1 ≤ ix.data.length) (hd : ix.data.getD 0 0 = d) :
    is_compute_budget_instruction keys ix d = some true := by
  unfold is_compute_budget_instruction
  rw [hk]
  have hnl : ¬ ix.data.length < 1 := by omega
  rw [List.getD_eq_getElem?_getD] at hd
  simp [hnl, hd]

/-! ### Claim theorems -/

/-- C3: for every transaction and requirement, if `verify` accepts
then `requirement.extra.feePayer` does not appear among the accounts
referenced by the `accountIndices` of any instruction. -/
theorem C3_fee_payer_isolation (fpa : List String → String → String)
    (s : Settings) (tx : Transaction) (req : PaymentRequirements)
    (h : (verify fpa s tx req).is_valid = true) :
    ∀ ix ∈ tx.message.instructions, ∀ a ∈ ix.accounts,
      tx.message.account_keys.get? a ≠ some req.extra.fee_payer := by
  obtain ⟨-, p, -, -, -, hfee⟩ := verify_valid_parts h
  intro ix hix a ha
  obtain ⟨k, hk, hne⟩ := fee_payer_scan_false hfee ix hix a ha
  rw [hk]
  intro hc
  injection hc with hc
  exact hne hc

/-- Witness for C3 at the concrete accepted transaction `txValid`. -/
theorem C3_fee_payer_isolation_witness :
    (verify fpa0 settings0 txValid req0).is_valid = true ∧
    (∀ ix ∈ txValid.message.instructions, ∀ a ∈ ix.accounts,
      txValid.message.account_keys.get? a ≠ some req0.extra.fee_payer) :=
  ⟨by decide, C3_fee_payer_isolation fpa0 settings0 txValid req0 (by decide)⟩

/-- C1 counterexample: `txValid` is accepted by `verify` against
`req0`, yet its `accountKeys[0]` is not `req0.extra.feePayer`. -/
theorem C1_counterexample :
    (verify fpa0 settings0 txValid req0).is_valid = true ∧
    txValid.message.account_keys.get? 0 ≠ some req0.extra.fee_payer := by
  decide

/-- C1 (amended): `verify` never compares `accountKeys[0]` with
`requirement.extra.feePayer`; acceptance only guarantees that when an
instruction references account index 0, the key there is not the fee
payer. -/
theorem C1_amended (fpa : List String → String → String) (s : Settings)
    (tx : Transaction) (req : PaymentRequirements)
    (h : (verify fpa s tx req).is_valid = true)
    (ix : CompiledInstruction) (hix : ix ∈ tx.message.instructions)
    (h0 : 0 ∈ ix.accounts) :
    tx.message.account_keys.get? 0 ≠ some req.extra.fee_payer := by
  obtain ⟨-, p, -, -, -, hfee⟩ := verify_valid_parts h
  obtain ⟨k, hk, hne⟩ := fee_payer_scan_false hfee ix hix 0 h0
  rw [hk]
  intro hc
  injection hc with hc
  exact hne hc

/-- Witness for the amended C1 at `txValid`, whose transfer
instruction references account index 0 as the authority. -/
theorem C1_amended_witness :
    ((verify fpa0 settings0 txValid req0).is_valid = true ∧
      ixTransfer ∈ txValid.message.instructions ∧ 0 ∈ ixTransfer.accounts) ∧
    txValid.message.account_keys.get? 0 ≠ some req0.extra.fee_payer :=
  ⟨⟨by decide, by decide, by decide⟩,
    C1_amended fpa0 settings0 txValid req0 (by decide) ixTransfer (by decide) (by decide)⟩

/-- C2 counterexample: `txHeader7`, whose header requires 7
signatures, is accepted by `verify`, so acceptance does not force
`numRequiredSignatures = 2`. -/
theorem C2_counterexample :
    (verify fpa0 settings0 txHeader7 req0).is_valid = true ∧
    txHeader7.message.header.num_required_signatures ≠ 2 := by
  decide

/-- C2 (amended): the verifier never reads the message header, so it
cannot constrain `numRequiredSignatures`, and it relates no signer
slot to the transfer authority: its result is invariant under header
replacement, and it accepts `txValid` although `accountKeys[1]` there
differs from the key referenced by the transfer instruction's fourth
account index. -/
theorem C2_amended :
    (∀ (fpa : List String → String → String) (s : Settings)
      (sigs : List (List Nat)) (hdr hdr2 : MessageHeader) (keys : List String)
      (bh : String) (ixs : List CompiledInstruction) (req : PaymentRequirements),
      verify fpa s ⟨sigs, ⟨hdr, keys, bh, ixs⟩⟩ req =
        verify fpa s ⟨sigs, ⟨hdr2, keys, bh, ixs⟩⟩ req) ∧
    ((verify fpa0 settings0 txValid req0).is_valid = true ∧
      txValid.message.account_keys.getD 1 "" ≠
        txValid.message.account_keys.getD
          ((txValid.message.instructions.getD 2 default).accounts.getD 3 0) "") :=
  ⟨fun _ _ _ _ _ _ _ _ _ => rfl, by decide⟩

/-- C10: the verifier reads only the message: for any two decoded
transactions sharing a message and differing arbitrarily in their
signature arrays, `verify` returns identical results. -/
theorem C10_signature_independence (fpa : List String → String → String)
    (s : Settings) (sigs1 sigs2 : List (List Nat)) (msg : Message)
    (req : PaymentRequirements) :
    verify fpa s ⟨sigs1, msg⟩ req = verify fpa s ⟨sigs2, msg⟩ req := rfl

/-- C5 counterexample: `txBothLimit` carries discriminator 2 in both
of its first two instructions (no `0x03` at all) and is still
accepted, so acceptance does not force one `0x02` and one `0x03`. -/
theorem C5_counterexample :
    (verify fpa0 settings0 txBothLimit req0).is_valid = true ∧
    (txBothLimit.message.instructions.getD 0 default).data.getD 0 0 = 2 ∧
    (txBothLimit.message.instructions.getD 1 default).data.getD 0 0 = 2 := by
  decide

/-- C5 (amended): acceptance guarantees that instructions 0 and 1 both
target the compute-budget program with discriminator 2 or 3 each (not
necessarily one of each); if instruction 1 carries discriminator 3,
its u64 LE price at offset 1 is within `max_compute_unit_price`, and
otherwise, if instruction 0 carries discriminator 3, its price is
within the bound.  Two discriminator-2 instructions pass with no price
check. -/
theorem C5_amended (fpa : List String → String → String) (s : Settings)
    (tx : Transaction) (req : PaymentRequirements)
    (h : (verify fpa s tx req).is_valid = true) :
    (tx.message.account_keys.get?
        (tx.message.instructions.getD 0 default).program_id_index =
        some COMPUTE_BUDGET_PROGRAM ∧
      ((tx.message.instructions.getD 0 default).data.getD 0 0 = 2 ∨
        (tx.message.instructions.getD 0 default).data.getD 0 0 = 3)) ∧
    (tx.message.account_keys.get?
        (tx.message.instructions.getD 1 default).program_id_index =
        some COMPUTE_BUDGET_PROGRAM ∧
      ((tx.message.instructions.getD 1 default).data.getD 0 0 = 2 ∨
        (tx.message.instructions.getD 1 default).data.getD 0 0 = 3)) ∧
    ((tx.message.instructions.getD 1 default).data.getD 0 0 = 3 →
      9 ≤ (tx.message.instructions.getD 1 default).data.length ∧
      u64le (tx.message.instructions.getD 1 default).data 1 ≤
        s.max_compute_unit_price) ∧
    ((tx.message.instructions.getD 1 default).data.getD 0 0 ≠ 3 →
      (tx.message.instructions.getD 0 default).data.getD 0 0 = 3 →
      9 ≤ (tx.message.instructions.getD 0 default).data.length ∧
      u64le (tx.message.instructions.getD 0 default).data 1 ≤
        s.max_compute_unit_price) := by
  obtain ⟨-, p, hscan, hpi, -, -⟩ := verify_valid_parts h
  obtain ⟨⟨hk0, hl0, hd0⟩, ⟨hk1, hl1, hd1⟩⟩ := cbScan_two hscan
  refine ⟨⟨hk0, hd0⟩, ⟨hk1, hd1⟩, ?_, ?_⟩
  · intro h31
    have hcb1 : is_compute_budget_instruction tx.message.account_keys
        (tx.message.instructions.getD 1 default) 3 = some true :=
      is_cb_true_intro hk1 hl1 h31
    have hp1 : p = some 1 := cbScan_price_last hscan hcb1
    exact price_ok (hpi 1 hp1)
  · intro hne1 h30
    have hcb1 : is_compute_budget_instruction tx.message.account_keys
        (tx.message.instructions.getD 1 default) 2 = some true := by
      rcases hd1 with hd1 | hd1
      · exact is_cb_true_intro hk1 hl1 hd1
      · exact absurd hd1 hne1
    have hcb0 : is_compute_budget_instruction tx.message.account_keys
        (tx.message.instructions.getD 0 default) 3 = some true :=
      is_cb_true_intro hk0 hl0 h30
    have hp0 : p = some 0 := cbScan_price_first hscan hcb1 hcb0
    exact price_ok (hpi 0 hp0)

/-- Witness for the amended C5 at `txValid` (instruction 0 carries
discriminator 2 and instruction 1 discriminator 3 with price 1). -/
theorem C5_amended_witness :
    (verify fpa0 settings0 txValid req0).is_valid = true ∧
    (((txValid.message.instructions.getD 1 default).data.getD 0 0 = 3 →
      9 ≤ (txValid.message.instructions.getD 1 default).data.length ∧
      u64le (txValid.message.instructions.getD 1 default).data 1 ≤
        settings0.max_compute_unit_price)) :=
  ⟨by decide, (C5_amended fpa0 settings0 txValid req0 (by decide)).2.2.1⟩

/-- C6: if `verify` accepts then the u64 LE at offset 1 of
instruction 2's data is exactly the parsed `maxAmountRequired`; and
whenever the earlier checks pass (three instructions, compute-budget
scan with count 2, compute-unit-price bound, token program with
transfer-checked discriminator and well-formed data) but that u64
differs from the parsed `maxAmountRequired`, `verify` rejects with
exactly the reason `Amount <amount> does not match required
<required>`. -/
theorem C6_amount_exactness (fpa : List String → String → String) (s : Settings)
    (tx : Transaction) (req : PaymentRequirements)
    (i0 i1 i2 : CompiledInstruction) (p : Option Nat) (pid : String)
    (required : Nat) :
    ((verify fpa s tx req).is_valid = true →
      pyIntParse req.max_amount_required =
        some (u64le (tx.message.instructions.getD 2 default).data 1)) ∧
    (tx.message.instructions = [i0, i1, i2] →
      cbScan tx.message.account_keys i0 i1 = some (2, p) →
      (∀ pi, p = some pi →
        verify_compute_price s (tx.message.instructions.getD pi default) =
          (true, none)) →
      tx.message.account_keys.get? i2.program_id_index = some pid →
      (pid = SPL_TOKEN_PROGRAM ∨ pid = TOKEN_2022_PROGRAM) →
      i2.data.getD 0 0 = 12 → 10 ≤ i2.data.length →
      pyIntParse req.max_amount_required = some required →
      u64le i2.data 1 ≠ required →
      verify fpa s tx req = ⟨false, some ("Amount " ++ toString (u64le i2.data 1) ++
        " does not match required " ++ toString required)⟩) := by
  constructor
  · intro h
    obtain ⟨-, pp, -, -, hti, -⟩ := verify_valid_parts h
    obtain ⟨r, htr⟩ := hti
    obtain ⟨pid2, -, -, -, -, hamt, -⟩ := transfer_valid htr
    exact hamt
  · intro h1 h2 h3 h4 h5 h6 h7 h8 h9
    have e0 : tx.message.instructions.getD 0 default = i0 := by rw [h1]; rfl
    have e1 : tx.message.instructions.getD 1 default = i1 := by rw [h1]; rfl
    have e2 : tx.message.instructions.getD 2 default = i2 := by rw [h1]; rfl
    have hlen : tx.message.instructions.length = 3 := by rw [h1]; rfl
    have htr : verify_transfer_instruction fpa s
        (tx.message.instructions.getD 2 default) tx.message.account_keys req =
        some (false, some ("Amount " ++ toString (u64le i2.data 1) ++
          " does not match required " ++ toString required)) := by
      rw [e2]
      exact transfer_amount_mismatch h4 h5 h6 h7 h8 h9
    have hb := @verify_eq_budget fpa s tx req hlen
    rw [hb]
    have hscan : cbScan tx.message.account_keys
        (tx.message.instructions.getD 0 default)
        (tx.message.instructions.getD 1 default) = some (2, p) := by
      rw [e0, e1]; exact h2
    rw [budget_eq_price hscan]
    cases p with
    | none => exact transfer_eq_false htr
    | some pi =>
      rw [price_eq_transfer (h3 pi rfl)]
      exact transfer_eq_false htr

/-- Witness for C6: the exactness direction at the accepted `txValid`
and the mismatch direction at `txWrongAmount` (amount 9999 against a
required 10000). -/
theorem C6_amount_exactness_witness :
    (pyIntParse req0.max_amount_required =
      some (u64le (txValid.message.instructions.getD 2 default).data 1)) ∧
    verify fpa0 settings0 txWrongAmount req0 =
      ⟨false, some "Amount 9999 does not match required 10000"⟩ := by
  constructor
  · exact (C6_amount_exactness fpa0 settings0 txValid req0 default default default
      none "" 0).1 (by decide)
  · have h := (C6_amount_exactness fpa0 settings0 txWrongAmount req0 ixLimit ixPrice
      ixTransfer9999 (some 1) SPL_TOKEN_PROGRAM 10000).2 rfl (by decide)
      (fun pi hpi => by injection hpi with hpi; subst hpi; decide)
      (by decide) (Or.inl rfl) (by decide) (by decide) (by decide) (by decide)
    exact h

/-- C7 counterexample: `txFiveAccounts`, whose transfer instruction
carries five account indices, is accepted, so acceptance does not
force exactly four accounts. -/
theorem C7_counterexample :
    (verify fpa0 settings0 txFiveAccounts req0).is_valid = true ∧
    (txFiveAccounts.message.instructions.getD 2 default).accounts.length = 5 := by
  decide

/-- C7 (amended): acceptance guarantees instruction 2 targets a token
program with AT LEAST four account indices (the code checks `< 4`
only), and the third referenced account equals the associated token
address derived by `fpa` from seeds `[payTo, token_program, asset]`
under the associated-token program. -/
theorem C7_amended (fpa : List String → String → String) (s : Settings)
    (tx : Transaction) (req : PaymentRequirements)
    (h : (verify fpa s tx req).is_valid = true) :
    ∃ pid, tx.message.account_keys.get?
        (tx.message.instructions.getD 2 default).program_id_index = some pid ∧
      (pid = SPL_TOKEN_PROGRAM ∨ pid = TOKEN_2022_PROGRAM) ∧
      4 ≤ (tx.message.instructions.getD 2 default).accounts.length ∧
      tx.message.account_keys.get?
          ((tx.message.instructions.getD 2 default).accounts.getD 2 0) =
        some (get_associated_token_address fpa req.pay_to req.asset pid) := by
  obtain ⟨-, p, -, -, hti, -⟩ := verify_valid_parts h
  obtain ⟨r, htr⟩ := hti
  obtain ⟨pid, hk, hprog, -, -, -, -, hacc, -, hata⟩ := transfer_valid htr
  exact ⟨pid, hk, hprog, hacc, hata⟩

/-- C9: whenever verification fails, `settle` returns success `false`
carrying the verification reason and performs no RPC interaction at
all (empty chain trace). -/
theorem C9_settle_no_chain_on_failure (fpa : List String → String → String)
    (s : Settings) (k : Keypair) (msgBytes msgHash : Message → List Nat)
    (rpcSendResult : String) (tx : Transaction) (isLegacy : Bool)
    (req : PaymentRequirements) (r : Option String)
    (h : verify fpa s tx req = ⟨false, r⟩) :
    settle fpa s (some k) msgBytes msgHash rpcSendResult tx isLegacy req =
      (⟨false, some ("Verification failed: " ++ pyStrOption r), none, none, none⟩,
        []) := by
  unfold settle
  split
  next heq => exact absurd heq (by simp)
  next k2 heq =>
    injection heq with heq
    subst heq
    split
    next r2 heq2 =>
      rw [h] at heq2
      injection heq2 with hb hr
      rw [hr]
    next heq2 =>
      rw [h] at heq2
      exact absurd heq2 (by simp)

/-- Witness for C9: a transaction with zero instructions fails
verification and `settle` returns the reason with an empty RPC
trace. -/
theorem C9_settle_no_chain_on_failure_witness :
    verify fpa0 settings0 txEmpty req0 =
      ⟨false, some "Expected 3 instructions, got 0"⟩ ∧
    settle fpa0 settings0 (some kpId) mBytes mHash "TXSIG" txEmpty true req0 =
      (⟨false, some "Verification failed: Expected 3 instructions, got 0",
        none, none, none⟩, []) :=
  ⟨by decide, C9_settle_no_chain_on_failure fpa0 settings0 kpId mBytes mHash
    "TXSIG" txEmpty true req0 (some "Expected 3 instructions, got 0") (by decide)⟩

/-- C4: on the versioned path, `settle` does not write a
message-bytes signature into the facilitator slot: it APPENDS to the
signature list a signature computed over the hash bytes.  Evaluated on
the accepted transaction `txValid` (two signature slots), the
submitted transaction carries three signatures, and the appended one
covers `mHash` of the message, which differs from the message bytes.
This contradicts both the claimed signature localization (only
`signatures[0]` may change) and signing over canonical message
bytes. -/
theorem C4_versioned_append_behavior :
    settle fpa0 settings0 (some kpId) mBytes mHash "TXSIG" txValid false req0 =
      (⟨true, none, some "TXSIG", some "mainnet-beta", some "FEE"⟩,
        [RpcCall.getLatestBlockhash,
          RpcCall.sendTransaction
            ⟨txValid.signatures ++ [mHash txValid.message], txValid.message⟩]) ∧
    (txValid.signatures ++ [mHash txValid.message]).length = 3 ∧
    txValid.signatures.length = 2 ∧
    mHash txValid.message ≠ mBytes txValid.message := by
  decide

/-- Witness for the amended C7 at `txValid`. -/
theorem C7_amended_witness :
    (verify fpa0 settings0 txValid req0).is_valid = true ∧
    (∃ pid, txValid.message.account_keys.get?
        (txValid.message.instructions.getD 2 default).program_id_index = some pid ∧
      (pid = SPL_TOKEN_PROGRAM ∨ pid = TOKEN_2022_PROGRAM) ∧
      4 ≤ (txValid.message.instructions.getD 2 default).accounts.length ∧
      txValid.message.account_keys.get?
          ((txValid.message.instructions.getD 2 default).accounts.getD 2 0) =
        some (get_associated_token_address fpa0 req0.pay_to req0.asset pid)) :=
  ⟨by decide, C7_amended fpa0 settings0 txValid req0 (by decide)⟩
/-- C8 counterexample: the claimed conversion pipeline disagrees with
the code.  At price `0.0000015` the code yields 1 (the binary64
product is exactly 1.5 and `int` truncates toward zero) while the
claimed round-to-nearest-even yields 2; at price `0` the code yields 0
while the claimed clamp to `[1, 2^64 - 1]` yields 1. -/
theorem C8_counterexample :
    (amount_atomic "0.0000015" 6 = some 1 ∧
      spec_price_to_atomic "0.0000015" 6 = some 2) ∧
    (amount_atomic "0" 6 = some 0 ∧ spec_price_to_atomic "0" 6 = some 1) := by
  decide

/-- C8 (amended): the requirement builder removes every dollar sign,
parses the remainder as an IEEE-754 binary64 float, multiplies by
`10 ^ decimals` in binary64 arithmetic, and truncates toward zero,
with no clamping; in particular, with 6 decimals, price `$0.01` yields
`maxAmountRequired = "10000"` and price `1` yields `"1000000"`. -/
theorem C8_amended :
    (generate_requirements settings0 "FEE" "$0.01" "PAYTO"
        "https://example.com/r" "" 60).map (fun r => r.max_amount_required) =
      some "10000" ∧
    (generate_requirements settings0 "FEE" "1" "PAYTO"
        "https://example.com/r" "" 60).map (fun r => r.max_amount_required) =
      some "1000000" := by
  decide

end X402
